import Mathlib

/-! Shallow embedding of the Flight Plan Assistant source file.

Python floats are modelled as rationals (every numeric literal in the
program is exactly representable), Python int(x) as truncation toward
zero, and the f-string pieces of each message as explicit fields so the
formatting directives of the source stay visible.  The flight-time value
that the source returns as a formatted hours-and-minutes string, or as the
headwind error string, is kept as a structured result; the round-trip the
callers perform — split the time string and convert its first component
back to a number, which recovers only the whole hours — is modelled by
using exactly the hours component downstream. -/

namespace FlightPlan

/-- One entry of `aircraft_db`: name, cruise speed (knots, an integer
literal in the source), fuel burn (gal/h, a float literal), max fuel
(gallons, an integer literal), seats. -/
structure Aircraft where
  name : String
  cruise_speed : ℕ
  fuel_burn : ℚ
  max_fuel : ℕ
  seats : ℕ
deriving DecidableEq

def c172 : Aircraft := { name := "Cessna 172", cruise_speed := 120, fuel_burn := 8.5, max_fuel := 56, seats := 4 }

def pa28 : Aircraft := { name := "Piper Cherokee", cruise_speed := 130, fuel_burn := 9.0, max_fuel := 50, seats := 4 }

def sr22 : Aircraft := { name := "Cirrus SR22", cruise_speed := 185, fuel_burn := 15.0, max_fuel := 92, seats := 5 }

/-- The catalog aircraft_db, in Python dict insertion order. -/
def aircraft_db : List (String × Aircraft) := [("C172", c172), ("PA28", pa28), ("SR22", sr22)]

/-- Python `int(x)` on a float: truncation toward zero. -/
def pyInt (q : ℚ) : ℤ := if 0 ≤ q then ⌊q⌋ else -⌊-q⌋

/-- Result of `calculate_flight_time`: either the headwind-too-strong
error string or the formatted hours-and-minutes string, kept structured. -/
inductive FlightTimeResult where
  | error : FlightTimeResult
  | time (hours minutes : ℤ) : FlightTimeResult
deriving DecidableEq

/-- Embedding of calculate_flight_time(distance, speed, headwind=0). -/
def calculate_flight_time (distance speed headwind : ℚ) : FlightTimeResult :=
  let actual_speed := speed - headwind
  if actual_speed ≤ 0 then
    .error
  else
    let time_hours := distance / actual_speed
    let hours := pyInt time_hours
    let minutes := pyInt ((time_hours - (hours : ℚ)) * 60)
    .time hours minutes

/-- Embedding of calculate_fuel_needed(time_hours, fuel_burn, reserve=1.0). -/
def calculate_fuel_needed (time_hours fuel_burn reserve : ℚ) : ℚ :=
  (time_hours + reserve) * fuel_burn

/-- Round half to even, to an integer (Python float-to-decimal rounding). -/
def roundHalfEvenZ (q : ℚ) : ℤ :=
  let f := ⌊q⌋
  if q - (f : ℚ) < 1 / 2 then f
  else if (1 / 2 : ℚ) < q - (f : ℚ) then f + 1
  else if f % 2 = 0 then f else f + 1

/-- The f-string directive `:.1f`: round to one decimal, render with
exactly one digit after the point. -/
def formatFixed1 (q : ℚ) : String :=
  let n := roundHalfEvenZ (q * 10)
  let sign := if n < 0 then "-" else ""
  sign ++ toString (n.natAbs / 10) ++ "." ++ toString (n.natAbs % 10)

/-- The message built by `check_fuel_sufficiency`, with the interpolated
pieces kept as fields: `ok` selects the Fuel-OK branch, `needShown` is the
text interpolated for the fuel needed under the one-decimal directive, and
`capShown` the text interpolated for the max fuel, which carries no format
directive in the source. -/
structure FuelCheckResult where
  ok : Bool
  needShown : String
  capShown : String
deriving DecidableEq

/-- Embedding of check_fuel_sufficiency(aircraft, fuel_needed). -/
def check_fuel_sufficiency (aircraft : Aircraft) (fuel_needed : ℚ) : FuelCheckResult :=
  let max_fuel := aircraft.max_fuel
  if fuel_needed ≤ (max_fuel : ℚ) then
    { ok := true, needShown := formatFixed1 fuel_needed, capShown := toString max_fuel }
  else
    { ok := false, needShown := formatFixed1 fuel_needed, capShown := toString max_fuel }

/-- Rendering of the full `check_fuel_sufficiency` message string. -/
def fuelCheckMessage (r : FuelCheckResult) : String :=
  if r.ok then
    "Fuel OK: " ++ r.needShown ++ " gal needed, " ++ r.capShown ++ " gal capacity"
  else
    "Fuel warning: " ++ r.needShown ++ " gal needed, but only " ++ r.capShown ++ " gal capacity"

/-- Embedding of calculate_cost(fuel_needed, fuel_price=6.50). -/
def calculate_cost (fuel_needed fuel_price : ℚ) : ℚ :=
  fuel_needed * fuel_price

/-- The three wind-condition remarks printed at the end of
`display_flight_plan`. -/
inductive WindRemark where
  | caution : WindRemark
  | favorable : WindRemark
  | neutral : WindRemark
deriving DecidableEq

/-- The `if headwind > 20 / elif headwind < -10 / else` branch of
`display_flight_plan`. -/
def wind_remark (headwind : ℚ) : WindRemark :=
  if 20 < headwind then .caution
  else if headwind < -10 then .favorable
  else .neutral

/-- The fuel-check line: either a `check_fuel_sufficiency` message or the
literal N/A set on the error path. -/
inductive FuelCheckDisplay where
  | check (r : FuelCheckResult) : FuelCheckDisplay
  | na : FuelCheckDisplay
deriving DecidableEq

/-- Everything `display_flight_plan` prints after its inputs are read. -/
structure FlightPlanSummary where
  flight_time : FlightTimeResult
  fuel_needed : ℚ
  fuel_check : FuelCheckDisplay
  cost : ℚ
  windRemark : WindRemark
deriving DecidableEq

/-- The computation phase of `display_flight_plan`, after aircraft lookup
and input parsing.  On the success branch the source recovers the hours by
`float(flight_time.split()[0])`, i.e. only the whole-hours component. -/
def flightPlanSummary (aircraft : Aircraft) (distance headwind fuel_price : ℚ) : FlightPlanSummary :=
  let flight_time := calculate_flight_time distance (aircraft.cruise_speed : ℚ) headwind
  match flight_time with
  | .time h _m =>
      let hours : ℚ := (h : ℚ)
      let fuel_needed := calculate_fuel_needed hours aircraft.fuel_burn 1
      let fuel_check := FuelCheckDisplay.check (check_fuel_sufficiency aircraft fuel_needed)
      let cost := calculate_cost fuel_needed fuel_price
      { flight_time := flight_time, fuel_needed := fuel_needed,
        fuel_check := fuel_check, cost := cost, windRemark := wind_remark headwind }
  | .error =>
      { flight_time := flight_time, fuel_needed := 0,
        fuel_check := FuelCheckDisplay.na, cost := 0, windRemark := wind_remark headwind }

/-- Python `str.upper()`, character by character (all catalog codes and the
inputs of interest are ASCII). -/
def pyUpper (s : String) : String := ⟨s.data.map Char.toUpper⟩

/-- Case-insensitive catalog lookup (`input().upper()` then membership in
`aircraft_db`). -/
def lookupAircraft (code : String) : Option Aircraft :=
  (aircraft_db.find? (fun p => p.1 == pyUpper code)).map Prod.snd

/-- Embedding of display_flight_plan with its stdin reads abstracted:
`none` models the aircraft-not-found early return. -/
def display_flight_plan (code : String) (distance headwind fuel_price : ℚ) :
    Option FlightPlanSummary :=
  (lookupAircraft code).map (fun a => flightPlanSummary a distance headwind fuel_price)

/-- One printed row of the comparison table: name truncated to 12
characters, the two components of the time string, fuel and cost. -/
structure CompRow where
  name : String
  hours : ℤ
  minutes : ℤ
  fuel : ℚ
  cost : ℚ
deriving DecidableEq

/-- Embedding of aircraft_comparison, after its distance input is read:
rows whose `calculate_flight_time` result is the error string are skipped;
headwind defaults to 0, reserve to 1.0, fuel price to 6.50. -/
def aircraft_comparison (distance : ℚ) : List CompRow :=
  aircraft_db.filterMap (fun p =>
    match calculate_flight_time distance (p.2.cruise_speed : ℚ) 0 with
    | .error => none
    | .time h m =>
        let fuel := calculate_fuel_needed (h : ℚ) p.2.fuel_burn 1
        let cost := calculate_cost fuel 6.50
        some { name := p.2.name.take 12, hours := h, minutes := m, fuel := fuel, cost := cost })

/-! Helper lemmas. -/

lemma pyInt_of_nonneg {q : ℚ} (h : 0 ≤ q) : pyInt q = ⌊q⌋ := by
  rw [pyInt, if_pos h]

lemma calculate_flight_time_pos (d s w : ℚ) (h : 0 < s - w) :
    calculate_flight_time d s w =
      .time (pyInt (d / (s - w)))
        (pyInt ((d / (s - w) - ((pyInt (d / (s - w)) : ℤ) : ℚ)) * 60)) := by
  simp only [calculate_flight_time, if_neg (not_le.mpr h)]

lemma calculate_flight_time_nonpos (d s w : ℚ) (h : s - w ≤ 0) :
    calculate_flight_time d s w = .error := by
  simp only [calculate_flight_time, if_pos h]

lemma flightPlanSummary_of_time (a : Aircraft) (d w p : ℚ) (h m : ℤ)
    (hT : calculate_flight_time d ((a.cruise_speed : ℕ) : ℚ) w = .time h m) :
    flightPlanSummary a d w p =
      { flight_time := .time h m,
        fuel_needed := calculate_fuel_needed ((h : ℤ) : ℚ) a.fuel_burn 1,
        fuel_check :=
          .check (check_fuel_sufficiency a (calculate_fuel_needed ((h : ℤ) : ℚ) a.fuel_burn 1)),
        cost := calculate_cost (calculate_fuel_needed ((h : ℤ) : ℚ) a.fuel_burn 1) p,
        windRemark := wind_remark w } := by
  simp only [flightPlanSummary, hT]

lemma flightPlanSummary_of_error (a : Aircraft) (d w p : ℚ)
    (hT : calculate_flight_time d ((a.cruise_speed : ℕ) : ℚ) w = .error) :
    flightPlanSummary a d w p =
      { flight_time := .error, fuel_needed := 0, fuel_check := .na, cost := 0,
        windRemark := wind_remark w } := by
  simp only [flightPlanSummary, hT]

lemma flightPlanSummary_windRemark (a : Aircraft) (d w p : ℚ) :
    (flightPlanSummary a d w p).windRemark = wind_remark w := by
  rcases hT : calculate_flight_time d ((a.cruise_speed : ℕ) : ℚ) w with _ | ⟨h, m⟩
  · rw [flightPlanSummary_of_error a d w p hT]
  · rw [flightPlanSummary_of_time a d w p h m hT]

/-! Claim theorems. -/

/-- C3: for every distance, cruise speed and headwind, `calculate_flight_time`
returns the failure result exactly when the headwind is at least the cruise
speed, equivalently when the effective speed `speed - headwind` is
nonpositive. -/
theorem calculate_flight_time_error_iff (d s w : ℚ) :
    (calculate_flight_time d s w = .error ↔ s ≤ w) ∧
    (calculate_flight_time d s w = .error ↔ s - w ≤ 0) := by
  have key : calculate_flight_time d s w = .error ↔ s - w ≤ 0 := by
    constructor
    · intro h
      by_contra hc
      rw [calculate_flight_time_pos d s w (lt_of_not_le hc)] at h
      exact FlightTimeResult.noConfusion h
    · exact calculate_flight_time_nonpos d s w
  exact ⟨key.trans sub_nonpos, key⟩

/-- C4: for every nonnegative distance and positive effective speed,
`calculate_flight_time` succeeds with `hours = ⌊distance / effectiveSpeed⌋`
and `minutes = ⌊(duration - hours) * 60⌋`, the hours are nonnegative, the
minutes lie in `[0, 60)`, and `hours * 60 + minutes` is the total duration
in minutes rounded down. -/
theorem calculate_flight_time_success (d s w : ℚ) (hd : 0 ≤ d) (hs : 0 < s - w) :
    calculate_flight_time d s w =
      .time ⌊d / (s - w)⌋ ⌊(d / (s - w) - ((⌊d / (s - w)⌋ : ℤ) : ℚ)) * 60⌋ ∧
    0 ≤ ⌊d / (s - w)⌋ ∧
    0 ≤ ⌊(d / (s - w) - ((⌊d / (s - w)⌋ : ℤ) : ℚ)) * 60⌋ ∧
    ⌊(d / (s - w) - ((⌊d / (s - w)⌋ : ℤ) : ℚ)) * 60⌋ < 60 ∧
    ⌊d / (s - w)⌋ * 60 + ⌊(d / (s - w) - ((⌊d / (s - w)⌋ : ℤ) : ℚ)) * 60⌋ =
      ⌊d / (s - w) * 60⌋ := by
  have ht0 : 0 ≤ d / (s - w) := div_nonneg hd hs.le
  have hfr : d / (s - w) - ((⌊d / (s - w)⌋ : ℤ) : ℚ) = Int.fract (d / (s - w)) :=
    Int.self_sub_floor (d / (s - w))
  have hfr0 : 0 ≤ (d / (s - w) - ((⌊d / (s - w)⌋ : ℤ) : ℚ)) * 60 := by
    rw [hfr]
    exact mul_nonneg (Int.fract_nonneg _) (by norm_num)
  refine ⟨?_, Int.floor_nonneg.mpr ht0, Int.floor_nonneg.mpr hfr0, ?_, ?_⟩
  · rw [calculate_flight_time_pos d s w hs, pyInt_of_nonneg ht0, pyInt_of_nonneg hfr0]
  · have hlt : (d / (s - w) - ((⌊d / (s - w)⌋ : ℤ) : ℚ)) * 60 < 60 := by
      rw [hfr]
      have := Int.fract_lt_one (d / (s - w))
      nlinarith [Int.fract_nonneg (d / (s - w))]
    exact Int.floor_lt.mpr (by exact_mod_cast hlt)
  · have hsplit : (d / (s - w) - ((⌊d / (s - w)⌋ : ℤ) : ℚ)) * 60 =
        d / (s - w) * 60 - (((⌊d / (s - w)⌋ * 60 : ℤ) : ℤ) : ℚ) := by
      push_cast
      ring
    rw [hsplit, Int.floor_sub_int]
    ring

/-- C4 witness: the scenario distance 300, speed 120, headwind 0 satisfies the
hypotheses and yields 2 hours 30 minutes. -/
theorem calculate_flight_time_success_witness :
    (0 : ℚ) ≤ 300 ∧ (0 : ℚ) < 120 - 0 ∧ calculate_flight_time 300 120 0 = .time 2 30 := by
  have h := calculate_flight_time_success 300 120 0 (by norm_num) (by norm_num)
  refine ⟨by norm_num, by norm_num, ?_⟩
  rw [h.1]
  norm_num

/-- C6: for every aircraft and fuel-needed value, `check_fuel_sufficiency`
reports ok exactly when the fuel needed is at most the maximum fuel
capacity; in particular at exact equality the result is ok. -/
theorem check_fuel_sufficiency_ok_iff (a : Aircraft) (fn : ℚ) :
    ((check_fuel_sufficiency a fn).ok = true ↔ fn ≤ ((a.max_fuel : ℕ) : ℚ)) ∧
    (check_fuel_sufficiency a ((a.max_fuel : ℕ) : ℚ)).ok = true := by
  constructor
  · by_cases h : fn ≤ ((a.max_fuel : ℕ) : ℚ) <;> simp [check_fuel_sufficiency, h]
  · simp [check_fuel_sufficiency]

/-- C8: in the Flight Plan Report, the wind remark is the caution note exactly
when headwind > 20, the favorable note exactly when headwind < -10, and the
neutral note exactly when -10 ≤ headwind ≤ 20 (both boundaries neutral). -/
theorem flightPlanSummary_windRemark_spec (a : Aircraft) (d w p : ℚ) :
    ((flightPlanSummary a d w p).windRemark = .caution ↔ 20 < w) ∧
    ((flightPlanSummary a d w p).windRemark = .favorable ↔ w < -10) ∧
    ((flightPlanSummary a d w p).windRemark = .neutral ↔ (-10 ≤ w ∧ w ≤ 20)) := by
  rw [flightPlanSummary_windRemark]
  unfold wind_remark
  split_ifs with h1 h2
  · refine ⟨by simp [h1], ?_, ?_⟩
    · simp only [reduceCtorEq, false_iff]
      intro hc
      linarith
    · simp only [reduceCtorEq, false_iff]
      intro hc
      linarith [hc.2]
  · refine ⟨by simp [h2]; linarith, by simp [h2], ?_⟩
    · simp only [reduceCtorEq, false_iff]
      intro hc
      linarith [hc.1]
  · refine ⟨?_, ?_, ?_⟩
    · simp only [reduceCtorEq, false_iff]
      exact h1
    · simp only [reduceCtorEq, false_iff]
      exact h2
    · simp only [true_iff]
      exact ⟨not_lt.mp h2, not_lt.mp h1⟩

/-- C2 counterexample: for the C172 and fuel needed 29.75, the capacity piece
of the message is the default rendering 56, not the one-decimal rendering
56.0, so the claim that both quantities are formatted to one decimal place
is false. -/
theorem check_fuel_capShown_not_one_decimal :
    (check_fuel_sufficiency c172 (119 / 4)).capShown ≠
      formatFixed1 ((c172.max_fuel : ℕ) : ℚ) := by
  have h1 : (check_fuel_sufficiency c172 (119 / 4)).capShown = "56" := by
    norm_num [check_fuel_sufficiency, c172]
    rfl
  have h2 : formatFixed1 ((c172.max_fuel : ℕ) : ℚ) = "56.0" := by
    norm_num [formatFixed1, roundHalfEvenZ, c172]
    rfl
  rw [h1, h2]
  decide

/-- C2 amended: for every aircraft and fuel-needed value, in both the ok and
the not-ok case, the message renders the fuel needed to one decimal place
(the `:.1f` directive) but renders the maximum fuel capacity with the
default formatting of the stored value, with no one-decimal directive. -/
theorem check_fuel_sufficiency_format (a : Aircraft) (fn : ℚ) :
    (check_fuel_sufficiency a fn).needShown = formatFixed1 fn ∧
    (check_fuel_sufficiency a fn).capShown = toString a.max_fuel := by
  by_cases h : fn ≤ ((a.max_fuel : ℕ) : ℚ) <;> simp [check_fuel_sufficiency, h]

/-- C5: when the flight-time computation fails (headwind at least cruise
speed), the report still produces a summary (it does not abort): the failure
result stands in the flight-time slot, the fuel-check line is the literal
N/A, the displayed fuel quantity is 0, and the cost is 0. -/
theorem display_flight_plan_headwind_too_strong (code : String) (a : Aircraft)
    (d w p : ℚ) (hl : lookupAircraft code = some a)
    (hw : ((a.cruise_speed : ℕ) : ℚ) ≤ w) :
    display_flight_plan code d w p =
      some { flight_time := .error, fuel_needed := 0, fuel_check := .na, cost := 0,
             windRemark := wind_remark w } := by
  have hT : calculate_flight_time d ((a.cruise_speed : ℕ) : ℚ) w = .error :=
    calculate_flight_time_nonpos _ _ _ (by linarith)
  rw [display_flight_plan, hl]
  simp only [Option.map]
  rw [flightPlanSummary_of_error a d w p hT]

/-- C5 witness: the scenario C172, distance 300, headwind 130 satisfies the
hypotheses and degrades the summary instead of aborting. -/
theorem display_flight_plan_headwind_too_strong_witness :
    lookupAircraft "C172" = some c172 ∧ ((c172.cruise_speed : ℕ) : ℚ) ≤ 130 ∧
    display_flight_plan "C172" 300 130 (13 / 2) =
      some { flight_time := .error, fuel_needed := 0, fuel_check := .na, cost := 0,
             windRemark := wind_remark 130 } := by
  have hl : lookupAircraft "C172" = some c172 := rfl
  have hw : ((c172.cruise_speed : ℕ) : ℚ) ≤ 130 := by norm_num [c172]
  exact ⟨hl, hw, display_flight_plan_headwind_too_strong "C172" c172 300 130 (13 / 2) hl hw⟩

/-- C7: with positive effective speed, distance 0 yields the successful
duration 0 hours 0 minutes, and the fuel the report computes for such a
flight is exactly one reserve hour of burn, `1 * fuel_burn`. -/
theorem zero_distance_flight (s w : ℚ) (hs : 0 < s - w) (a : Aircraft) (wa p : ℚ)
    (ha : 0 < ((a.cruise_speed : ℕ) : ℚ) - wa) :
    calculate_flight_time 0 s w = .time 0 0 ∧
    (flightPlanSummary a 0 wa p).fuel_needed = 1 * a.fuel_burn := by
  have hz : ∀ s' w' : ℚ, 0 < s' - w' → calculate_flight_time 0 s' w' = .time 0 0 := by
    intro s' w' h
    rw [calculate_flight_time_pos 0 s' w' h]
    norm_num [pyInt]
  refine ⟨hz s w hs, ?_⟩
  rw [flightPlanSummary_of_time a 0 wa p 0 0 (hz _ _ ha)]
  simp [calculate_fuel_needed]

/-- C7 witness: speed 120, headwind 0, aircraft C172, fuel price 6.50. -/
theorem zero_distance_flight_witness :
    (0 : ℚ) < 120 - 0 ∧ (0 : ℚ) < ((c172.cruise_speed : ℕ) : ℚ) - 0 ∧
    (calculate_flight_time 0 120 0 = .time 0 0 ∧
      (flightPlanSummary c172 0 0 (13 / 2)).fuel_needed = 1 * c172.fuel_burn) := by
  refine ⟨by norm_num, by norm_num [c172], ?_⟩
  exact zero_distance_flight 120 0 (by norm_num) c172 0 (13 / 2) (by norm_num [c172])

/-- C1: evaluation of the report at the spec scenario (C172, distance 300,
headwind 0, fuel price 6.50).  The flight time is 2 hours 30 minutes and the
sufficiency check is ok as claimed, but because the report recovers only the
whole-hours part of the time string, the fuel actually computed is
(2 + 1) * 8.5 = 25.5 gallons and the cost 165.75, not the claimed
29.75 gallons and 193.375. -/
theorem flightPlan_c172_300_eval :
    flightPlanSummary c172 300 0 (13 / 2) =
      { flight_time := .time 2 30, fuel_needed := 51 / 2,
        fuel_check := .check { ok := true, needShown := "25.5", capShown := "56" },
        cost := 663 / 4, windRemark := .neutral } ∧
    (flightPlanSummary c172 300 0 (13 / 2)).fuel_needed ≠ 119 / 4 ∧
    (flightPlanSummary c172 300 0 (13 / 2)).cost ≠ 1547 / 8 := by
  have hT : calculate_flight_time 300 ((c172.cruise_speed : ℕ) : ℚ) 0 = .time 2 30 := by
    rw [calculate_flight_time_pos _ _ _ (by norm_num [c172])]
    norm_num [pyInt, c172]
  have hfuel : calculate_fuel_needed ((2 : ℤ) : ℚ) c172.fuel_burn 1 = 51 / 2 := by
    norm_num [calculate_fuel_needed, c172]
  have hok : check_fuel_sufficiency c172 (51 / 2) =
      { ok := true, needShown := formatFixed1 (51 / 2), capShown := toString c172.max_fuel } := by
    simp only [check_fuel_sufficiency]
    rw [if_pos (by norm_num [c172])]
  have hneed : formatFixed1 ((51 : ℚ) / 2) = "25.5" := by
    norm_num [formatFixed1, roundHalfEvenZ]
    rfl
  have hcap : toString c172.max_fuel = "56" := rfl
  have hcost : calculate_cost (51 / 2) (13 / 2) = 663 / 4 := by
    norm_num [calculate_cost]
  have hwind : wind_remark 0 = .neutral := by
    rw [wind_remark, if_neg (by norm_num), if_neg (by norm_num)]
  have hsum := flightPlanSummary_of_time c172 300 0 (13 / 2) 2 30 hT
  rw [hfuel, hok, hneed, hcap, hcost, hwind] at hsum
  refine ⟨hsum, ?_, ?_⟩
  · rw [hsum]
    norm_num
  · rw [hsum]
    norm_num

/-- C9: in the Aircraft Comparison Report a row is skipped exactly when the
flight-time computation fails, and with zero headwind and the positive
catalog cruise speeds that branch is unreachable: for every distance, every
catalog entry produces a row, in catalog order. -/
theorem aircraft_comparison_all_rows (d : ℚ) :
    (∀ q ∈ aircraft_db, calculate_flight_time d ((q.2.cruise_speed : ℕ) : ℚ) 0 ≠ .error) ∧
    (aircraft_comparison d).map CompRow.name =
      ["Cessna 172", "Piper Cherok", "Cirrus SR22"] := by
  have e1 := calculate_flight_time_pos d ((c172.cruise_speed : ℕ) : ℚ) 0 (by norm_num [c172])
  have e2 := calculate_flight_time_pos d ((pa28.cruise_speed : ℕ) : ℚ) 0 (by norm_num [pa28])
  have e3 := calculate_flight_time_pos d ((sr22.cruise_speed : ℕ) : ℚ) 0 (by norm_num [sr22])
  constructor
  · intro q hq
    simp only [aircraft_db, List.mem_cons, List.not_mem_nil, or_false] at hq
    rcases hq with rfl | rfl | rfl
    · show calculate_flight_time d ((c172.cruise_speed : ℕ) : ℚ) 0 ≠ FlightTimeResult.error
      rw [e1]
      exact fun hc => FlightTimeResult.noConfusion hc
    · show calculate_flight_time d ((pa28.cruise_speed : ℕ) : ℚ) 0 ≠ FlightTimeResult.error
      rw [e2]
      exact fun hc => FlightTimeResult.noConfusion hc
    · show calculate_flight_time d ((sr22.cruise_speed : ℕ) : ℚ) 0 ≠ FlightTimeResult.error
      rw [e3]
      exact fun hc => FlightTimeResult.noConfusion hc
  · simp only [aircraft_comparison, aircraft_db, List.filterMap_cons, List.filterMap_nil, e1, e2,
      e3, List.map]
    rfl

/-- C10 counterexample: for the C172, distance -150 and headwind 0 the
computation succeeds, and the fuel the report computes is
(trunc(-1.25) + 1) * 8.5 = 0, not (floor(-1.25) + 1) * 8.5 = -8.5, so the
claimed floor formula is false. -/
theorem flightPlan_fuel_floor_counterexample :
    (flightPlanSummary c172 (-150) 0 (13 / 2)).fuel_needed ≠
      (((⌊(-150 : ℚ) / (((c172.cruise_speed : ℕ) : ℚ) - 0)⌋ : ℤ) : ℚ) + 1) * c172.fuel_burn := by
  have hT : calculate_flight_time (-150) ((c172.cruise_speed : ℕ) : ℚ) 0 = .time (-1) (-15) := by
    rw [calculate_flight_time_pos _ _ _ (by norm_num [c172])]
    norm_num [pyInt, c172]
  rw [flightPlanSummary_of_time c172 (-150) 0 (13 / 2) (-1) (-15) hT]
  norm_num [calculate_fuel_needed, c172]

/-- C10 amended: in both reports, for every successful flight-time
computation the fuel computed equals (trunc(distance / effectiveSpeed) + 1.0)
times the fuel burn rate, where trunc is Python int() truncation toward zero
(equal to floor for nonnegative distance); only the whole-hours part of the
flight time is used and the minutes part is discarded. -/
theorem fuel_uses_truncated_hours (a : Aircraft) (d w p dc : ℚ)
    (h : 0 < ((a.cruise_speed : ℕ) : ℚ) - w) :
    (flightPlanSummary a d w p).fuel_needed =
      (((pyInt (d / (((a.cruise_speed : ℕ) : ℚ) - w)) : ℤ) : ℚ) + 1) * a.fuel_burn ∧
    (aircraft_comparison dc).map CompRow.fuel =
      aircraft_db.map (fun q =>
        (((pyInt (dc / (((q.2.cruise_speed : ℕ) : ℚ) - 0)) : ℤ) : ℚ) + 1) * q.2.fuel_burn) := by
  constructor
  · rw [flightPlanSummary_of_time a d w p _ _ (calculate_flight_time_pos d _ w h)]
    simp [calculate_fuel_needed]
  · have e1 := calculate_flight_time_pos dc ((c172.cruise_speed : ℕ) : ℚ) 0 (by norm_num [c172])
    have e2 := calculate_flight_time_pos dc ((pa28.cruise_speed : ℕ) : ℚ) 0 (by norm_num [pa28])
    have e3 := calculate_flight_time_pos dc ((sr22.cruise_speed : ℕ) : ℚ) 0 (by norm_num [sr22])
    simp only [aircraft_comparison, aircraft_db, List.filterMap_cons, List.filterMap_nil, e1, e2,
      e3, List.map]
    simp [calculate_fuel_needed]

/-- C10 witness: the amended statement at the C172, distance 300, headwind 0,
fuel price 6.50, comparison distance 300. -/
theorem fuel_uses_truncated_hours_witness :
    (0 : ℚ) < ((c172.cruise_speed : ℕ) : ℚ) - 0 ∧
    ((flightPlanSummary c172 300 0 (13 / 2)).fuel_needed =
      (((pyInt ((300 : ℚ) / (((c172.cruise_speed : ℕ) : ℚ) - 0)) : ℤ) : ℚ) + 1) * c172.fuel_burn ∧
    (aircraft_comparison 300).map CompRow.fuel =
      aircraft_db.map (fun q =>
        (((pyInt ((300 : ℚ) / (((q.2.cruise_speed : ℕ) : ℚ) - 0)) : ℤ) : ℚ) + 1) * q.2.fuel_burn)) :=
  ⟨by norm_num [c172], fuel_uses_truncated_hours c172 300 0 (13 / 2) 300 (by norm_num [c172])⟩

end FlightPlan
